import Mathlib

/-!
Shallow embedding of the PayWhirl Python API client (`paywhirl.py`).

The client is a façade over an HTTP transport: every public method builds a
parameter mapping, delegates to the generic dispatcher `_request`, and returns
the decoded JSON result.  We embed:

* Python dicts used as request parameters as association lists
  (`Params`), preserving insertion order like Python dicts;
* the HTTP transport (the `requests` library) as an explicit function
  `Request → Response` passed to each call;
* `requests`' `raise_for_status` (raises `HTTPError` for status codes in
  `[400, 600)`) and `resp.json()` (the transport-decoded JSON body);
* each method in state-passing style: it receives the client value (`self`)
  and returns the client value it leaves behind, the list of requests it
  issued over the transport, and the result (`Except HTTPError JsonValue`).
-/

/-- Decoded JSON values, as produced by the transport's `resp.json()`. -/
inductive JsonValue : Type where
  | null : JsonValue
  | bool (b : Bool) : JsonValue
  | num (n : Int) : JsonValue
  | str (s : String) : JsonValue
  | arr (elems : List JsonValue) : JsonValue
  | obj (fields : List (String × JsonValue)) : JsonValue

/-- Scalar parameter values appearing in the client's parameter dicts. -/
inductive Value : Type where
  | int (n : Int) : Value
  | str (s : String) : Value
deriving DecidableEq

/-- A Python parameter dict, as an insertion-ordered association list. -/
abbrev Params : Type := List (String × Value)

/-- Model of `requests.exceptions.HTTPError` (re-exported by the module as
`HTTPError`): it exposes the response's status code and body text via
`e.response.status_code` / `e.response.text`. -/
structure HTTPError : Type where
  status_code : Nat
  text : String

/-- The HTTP request handed to the transport.  For a GET, `requests.get(url,
params=...)` encodes the mapping as the query string (`query` field, `body` is
`none`); for a POST, `requests.post(url, json=...)` encodes it as a JSON
request body (`body` field, `query` is empty). `verify` is the
certificate-validation setting passed as `verify=`. -/
structure Request : Type where
  method : String
  url : String
  headers : List (String × String)
  verify : Bool
  query : Params
  body : Option Params

/-- The transport's response: status code, raw body text, and the decoded
JSON body that `resp.json()` returns. -/
structure Response : Type where
  status_code : Nat
  text : String
  json : JsonValue

/-- Model of `resp.raise_for_status()` from `requests`: it raises `HTTPError`
exactly when the status code is in `[400, 600)` (4xx client errors and 5xx
server errors), and the error carries the response's status and body text. -/
def Response.raise_for_status (resp : Response) : Except HTTPError Unit :=
  if 400 ≤ resp.status_code ∧ resp.status_code < 600 then
    Except.error ⟨resp.status_code, resp.text⟩
  else
    Except.ok ()

/-- The client's configuration fields (`paywhirl.py` lines 40-43). -/
structure PayWhirl : Type where
  _api_key : String
  _api_secret : String
  _api_base : String
  _verify_ssl : Bool

/-- `PayWhirl.__init__` (lines 45-62): stores the key, secret and base URL and
unconditionally sets `_verify_ssl = True`; the constructor exposes no
parameter for the TLS flag. In Python `api_base` defaults to
`'https://api.paywhirl.com'` when the caller omits it. -/
def PayWhirl.init (api_key : String) (api_secret : String) (api_base : String) : PayWhirl :=
  ⟨api_key, api_secret, api_base, true⟩

/-- The default value of the constructor's `api_base` parameter. -/
def defaultApiBase : String := "https://api.paywhirl.com"

/-- The two authentication headers built in `_request` (line 877). -/
def PayWhirl.authHeaders (pw : PayWhirl) : List (String × String) :=
  [("api_key", pw._api_key), ("api_secret", pw._api_secret)]

/-- `params = params or {}` (line 875): a missing parameter dict is
normalized to the empty dict. -/
def orEmpty (params : Option Params) : Params :=
  match params with
  | none => []
  | some ps => ps

/-- What a client method evaluation yields: the client value left behind
(`self` after the call), the requests issued over the transport, and the
returned decoded JSON or the raised `HTTPError`. -/
abbrev ApiResult : Type := PayWhirl × List Request × Except HTTPError JsonValue

/-- `PayWhirl._request` (lines 874-886): normalize `params`, build the URL by
concatenating the configured base with the path, attach the two credential
headers and the stored TLS flag, issue exactly one transport call (POST with
the params as JSON body, otherwise GET with the params as query string), then
`raise_for_status` and return `resp.json()`.  No field of `self` is
assigned. -/
def PayWhirl._request (pw : PayWhirl) (method : String) (path : String)
    (params : Option Params) (transport : Request → Response) : ApiResult :=
  let ps : Params := orEmpty params
  let url : String := pw._api_base ++ path
  let req : Request :=
    if method == "post" then
      ⟨method, url, pw.authHeaders, pw._verify_ssl, [], some ps⟩
    else
      ⟨method, url, pw.authHeaders, pw._verify_ssl, ps, none⟩
  let resp : Response := transport req
  (pw, [req],
    match resp.raise_for_status with
    | Except.error e => Except.error e
    | Except.ok _ => Except.ok resp.json)

/-- `PayWhirl._post` (lines 889-890). -/
def PayWhirl._post (pw : PayWhirl) (path : String) (params : Option Params)
    (transport : Request → Response) : ApiResult :=
  pw._request "post" path params transport

/-- `PayWhirl._get` (lines 892-893). -/
def PayWhirl._get (pw : PayWhirl) (path : String) (params : Option Params)
    (transport : Request → Response) : ApiResult :=
  pw._request "get" path params transport

/-- `get_customers` (line 64): `GET /customers` with the caller's dict. -/
def PayWhirl.get_customers (pw : PayWhirl) (data : Params)
    (transport : Request → Response) : ApiResult :=
  pw._get "/customers" (some data) transport

/-- `get_customer` (line 93): `GET /customer/{id}`. -/
def PayWhirl.get_customer (pw : PayWhirl) (customer_id : Int)
    (transport : Request → Response) : ApiResult :=
  pw._get ("/customer/" ++ toString customer_id) none transport

/-- `get_addresses` (line 107): `GET /customer/addresses/{id}`. -/
def PayWhirl.get_addresses (pw : PayWhirl) (customer_id : Int)
    (transport : Request → Response) : ApiResult :=
  pw._get ("/customer/addresses/" ++ toString customer_id) none transport

/-- `get_address` (line 122): `GET /customer/address/{id}`. -/
def PayWhirl.get_address (pw : PayWhirl) (address_id : Int)
    (transport : Request → Response) : ApiResult :=
  pw._get ("/customer/address/" ++ toString address_id) none transport

/-- `get_profile` (line 136): `GET /customer/profile/{id}`. -/
def PayWhirl.get_profile (pw : PayWhirl) (customer_id : Int)
    (transport : Request → Response) : ApiResult :=
  pw._get ("/customer/profile/" ++ toString customer_id) none transport

/-- `auth_customer` (line 153): `POST /auth/customer` with email and
password. -/
def PayWhirl.auth_customer (pw : PayWhirl) (email : String) (password : String)
    (transport : Request → Response) : ApiResult :=
  let data : Params := [("email", Value.str email), ("password", Value.str password)]
  pw._post "/auth/customer" (some data) transport

/-- `create_customer` (line 167): `POST /create/customer`. -/
def PayWhirl.create_customer (pw : PayWhirl) (data : Params)
    (transport : Request → Response) : ApiResult :=
  pw._post "/create/customer" (some data) transport

/-- `update_customer` (line 191): `POST /update/customer`. -/
def PayWhirl.update_customer (pw : PayWhirl) (data : Params)
    (transport : Request → Response) : ApiResult :=
  pw._post "/update/customer" (some data) transport

/-- `delete_customer` (lines 211-226): builds `{'id': customer_id}`, adds
the `forget` key only when the argument is not `None`, and issues
`POST /delete/customer`. -/
def PayWhirl.delete_customer (pw : PayWhirl) (customer_id : Int) (forget : Option Int)
    (transport : Request → Response) : ApiResult :=
  let data : Params := [("id", Value.int customer_id)]
  let data : Params :=
    match forget with
    | none => data
    | some f => data ++ [("forget", Value.int f)]
  pw._post "/delete/customer" (some data) transport

/-- `get_questions` (lines 228-243): builds `{'limit': return_list_size}`
(whose Python default is 100) and issues `GET /questions`. -/
def PayWhirl.get_questions (pw : PayWhirl) (return_list_size : Int)
    (transport : Request → Response) : ApiResult :=
  let data : Params := [("limit", Value.int return_list_size)]
  pw._get "/questions" (some data) transport

/-- `update_answer` (line 245): `POST /update/answer`. -/
def PayWhirl.update_answer (pw : PayWhirl) (data : Params)
    (transport : Request → Response) : ApiResult :=
  pw._post "/update/answer" (some data) transport

/-- `get_answers` (lines 265-278): `GET /answers` with
`{'customer_id': customer_id}`. -/
def PayWhirl.get_answers (pw : PayWhirl) (customer_id : Int)
    (transport : Request → Response) : ApiResult :=
  let data : Params := [("customer_id", Value.int customer_id)]
  pw._get "/answers" (some data) transport

/-- `get_plans` (line 280): `GET /plans` with the caller's dict. -/
def PayWhirl.get_plans (pw : PayWhirl) (data : Params)
    (transport : Request → Response) : ApiResult :=
  pw._get "/plans" (some data) transport

/-- `get_plan` (line 306): `GET /plan/{id}`. -/
def PayWhirl.get_plan (pw : PayWhirl) (plan_id : Int)
    (transport : Request → Response) : ApiResult :=
  pw._get ("/plan/" ++ toString plan_id) none transport

/-- `create_plan` (line 319): `POST /create/plan`. -/
def PayWhirl.create_plan (pw : PayWhirl) (data : Params)
    (transport : Request → Response) : ApiResult :=
  pw._post "/create/plan" (some data) transport

/-- `update_plan` (line 333): `POST /update/plan`. -/
def PayWhirl.update_plan (pw : PayWhirl) (data : Params)
    (transport : Request → Response) : ApiResult :=
  pw._post "/update/plan" (some data) transport

/-- `get_subscriptions` (line 348): `GET /subscriptions/{id}`. -/
def PayWhirl.get_subscriptions (pw : PayWhirl) (customer_id : Int)
    (transport : Request → Response) : ApiResult :=
  pw._get ("/subscriptions/" ++ toString customer_id) none transport

/-- `get_subscription` (line 362): `GET /subscription/{id}`. -/
def PayWhirl.get_subscription (pw : PayWhirl) (subscription_id : Int)
    (transport : Request → Response) : ApiResult :=
  pw._get ("/subscription/" ++ toString subscription_id) none transport

/-- `subscribe_customer` (line 376): `POST /subscribe/customer`. -/
def PayWhirl.subscribe_customer (pw : PayWhirl) (data : Params)
    (transport : Request → Response) : ApiResult :=
  pw._post "/subscribe/customer" (some data) transport

/-- `update_subscription` (lines 412-447): builds the mapping with
`subscription_id` and `plan_id`, then adds `quantity`, `address_id`,
`installments_left`, `trial_end` and `card_id` each only when the
corresponding argument is not `None`, and issues
`POST /update/subscription`. -/
def PayWhirl.update_subscription (pw : PayWhirl) (subscription_id : Int) (plan_id : Int)
    (quantity : Option Int) (address_id : Option Int) (installments_left : Option Int)
    (trial_end : Option Int) (card_id : Option Int)
    (transport : Request → Response) : ApiResult :=
  let data : Params :=
    [("subscription_id", Value.int subscription_id), ("plan_id", Value.int plan_id)]
  let data : Params :=
    match quantity with
    | none => data
    | some v => data ++ [("quantity", Value.int v)]
  let data : Params :=
    match address_id with
    | none => data
    | some v => data ++ [("address_id", Value.int v)]
  let data : Params :=
    match installments_left with
    | none => data
    | some v => data ++ [("installments_left", Value.int v)]
  let data : Params :=
    match trial_end with
    | none => data
    | some v => data ++ [("trial_end", Value.int v)]
  let data : Params :=
    match card_id with
    | none => data
    | some v => data ++ [("card_id", Value.int v)]
  pw._post "/update/subscription" (some data) transport

/-- `unsubscribe_customer` (lines 449-462): `POST /unsubscribe/customer`
with `{'subscription_id': subscription_id}`. -/
def PayWhirl.unsubscribe_customer (pw : PayWhirl) (subscription_id : Int)
    (transport : Request → Response) : ApiResult :=
  let data : Params := [("subscription_id", Value.int subscription_id)]
  pw._post "/unsubscribe/customer" (some data) transport

/-- `get_subscribers` (line 464): `GET /subscribers` with the caller's
dict. -/
def PayWhirl.get_subscribers (pw : PayWhirl) (data : Params)
    (transport : Request → Response) : ApiResult :=
  pw._get "/subscribers" (some data) transport

/-- `get_invoice` (line 492): `GET /invoice/{id}`. -/
def PayWhirl.get_invoice (pw : PayWhirl) (invoice_id : Int)
    (transport : Request → Response) : ApiResult :=
  pw._get ("/invoice/" ++ toString invoice_id) none transport

/-- `get_invoices` (lines 506-519): builds
`{'all': '1' if all_invoices else ''}` (the `all` key is always present)
and issues `GET /invoices/{id}`. -/
def PayWhirl.get_invoices (pw : PayWhirl) (customer_id : Int) (all_invoices : Bool)
    (transport : Request → Response) : ApiResult :=
  let params : Params := [("all", Value.str (if all_invoices then "1" else ""))]
  pw._get ("/invoices/" ++ toString customer_id) (some params) transport

/-- `process_invoice` (line 521): `POST /invoice/{id}/process`. -/
def PayWhirl.process_invoice (pw : PayWhirl) (invoice_id : Int) (data : Params)
    (transport : Request → Response) : ApiResult :=
  pw._post ("/invoice/" ++ toString invoice_id ++ "/process") (some data) transport

/-- `mark_invoice_as_paid` (line 534): `POST /invoice/{id}/mark-as-paid`
with no parameter dict (so `_post` receives `None`). -/
def PayWhirl.mark_invoice_as_paid (pw : PayWhirl) (invoice_id : Int)
    (transport : Request → Response) : ApiResult :=
  pw._post ("/invoice/" ++ toString invoice_id ++ "/mark-as-paid") none transport

/-- `add_promo_code_to_invoice` (line 545): `POST /invoice/{id}/add-promo`
with `{'promo_code': promo_code}`. -/
def PayWhirl.add_promo_code_to_invoice (pw : PayWhirl) (invoice_id : Int) (promo_code : String)
    (transport : Request → Response) : ApiResult :=
  let data : Params := [("promo_code", Value.str promo_code)]
  pw._post ("/invoice/" ++ toString invoice_id ++ "/add-promo") (some data) transport

/-- `remove_promo_code_from_invoice` (line 558):
`POST /invoice/{id}/remove-promo` with no parameter dict. -/
def PayWhirl.remove_promo_code_from_invoice (pw : PayWhirl) (invoice_id : Int)
    (transport : Request → Response) : ApiResult :=
  pw._post ("/invoice/" ++ toString invoice_id ++ "/remove-promo") none transport

/-- `update_invoice_card` (line 569): `POST /invoice/{id}/card` with
`{'card_id': card_id}`. -/
def PayWhirl.update_invoice_card (pw : PayWhirl) (invoice_id : Int) (card_id : Int)
    (transport : Request → Response) : ApiResult :=
  let data : Params := [("card_id", Value.int card_id)]
  pw._post ("/invoice/" ++ toString invoice_id ++ "/card") (some data) transport

/-- `update_invoice_items` (line 582): `POST /invoice/{id}/items` with the
caller's line-items dict. -/
def PayWhirl.update_invoice_items (pw : PayWhirl) (invoice_id : Int) (line_items : Params)
    (transport : Request → Response) : ApiResult :=
  pw._post ("/invoice/" ++ toString invoice_id ++ "/items") (some line_items) transport

/-- `create_invoice` (line 596): `POST /invoices`. -/
def PayWhirl.create_invoice (pw : PayWhirl) (data : Params)
    (transport : Request → Response) : ApiResult :=
  pw._post "/invoices" (some data) transport

/-- `delete_invoice` (lines 607-619): `POST /delete/invoice` with
`{'id': invoice_id}`. -/
def PayWhirl.delete_invoice (pw : PayWhirl) (invoice_id : Int)
    (transport : Request → Response) : ApiResult :=
  let data : Params := [("id", Value.int invoice_id)]
  pw._post "/delete/invoice" (some data) transport

/-- `get_gateways` (line 621): `GET /gateways` with no parameter dict. -/
def PayWhirl.get_gateways (pw : PayWhirl)
    (transport : Request → Response) : ApiResult :=
  pw._get "/gateways" none transport

/-- `get_gateway` (line 631): `GET /gateway/{id}`. -/
def PayWhirl.get_gateway (pw : PayWhirl) (gateway_id : Int)
    (transport : Request → Response) : ApiResult :=
  pw._get ("/gateway/" ++ toString gateway_id) none transport

/-- `create_charge` (line 644): `POST /create/charge`. -/
def PayWhirl.create_charge (pw : PayWhirl) (data : Params)
    (transport : Request → Response) : ApiResult :=
  pw._post "/create/charge" (some data) transport

/-- `get_charge` (line 658): `GET /charge/{id}`. -/
def PayWhirl.get_charge (pw : PayWhirl) (charge_id : Int)
    (transport : Request → Response) : ApiResult :=
  pw._get ("/charge/" ++ toString charge_id) none transport

/-- `refund_charge` (line 671): `POST /refund/charge/{id}`. -/
def PayWhirl.refund_charge (pw : PayWhirl) (charge_id : Int) (data : Params)
    (transport : Request → Response) : ApiResult :=
  pw._post ("/refund/charge/" ++ toString charge_id) (some data) transport

/-- `get_cards` (line 686): `GET /cards/{id}`. -/
def PayWhirl.get_cards (pw : PayWhirl) (customer_id : Int)
    (transport : Request → Response) : ApiResult :=
  pw._get ("/cards/" ++ toString customer_id) none transport

/-- `get_card` (line 699): `GET /card/{id}`. -/
def PayWhirl.get_card (pw : PayWhirl) (card_id : Int)
    (transport : Request → Response) : ApiResult :=
  pw._get ("/card/" ++ toString card_id) none transport

/-- `create_card` (line 712): `POST /create/card`. -/
def PayWhirl.create_card (pw : PayWhirl) (data : Params)
    (transport : Request → Response) : ApiResult :=
  pw._post "/create/card" (some data) transport

/-- `delete_card` (lines 725-737): `POST /delete/card` with
`{'id': card_id}`. -/
def PayWhirl.delete_card (pw : PayWhirl) (card_id : Int)
    (transport : Request → Response) : ApiResult :=
  let data : Params := [("id", Value.int card_id)]
  pw._post "/delete/card" (some data) transport

/-- `get_promos` (line 739): `GET /promo` with no parameter dict. -/
def PayWhirl.get_promos (pw : PayWhirl)
    (transport : Request → Response) : ApiResult :=
  pw._get "/promo" none transport

/-- `get_promo` (line 744): `GET /promo/{id}`. -/
def PayWhirl.get_promo (pw : PayWhirl) (promo_id : Int)
    (transport : Request → Response) : ApiResult :=
  pw._get ("/promo/" ++ toString promo_id) none transport

/-- `create_promo` (line 757): `POST /create/promo`. -/
def PayWhirl.create_promo (pw : PayWhirl) (data : Params)
    (transport : Request → Response) : ApiResult :=
  pw._post "/create/promo" (some data) transport

/-- `delete_promo` (lines 770-782): `POST /delete/promo` with
`{'id': promo_id}`. -/
def PayWhirl.delete_promo (pw : PayWhirl) (promo_id : Int)
    (transport : Request → Response) : ApiResult :=
  let data : Params := [("id", Value.int promo_id)]
  pw._post "/delete/promo" (some data) transport

/-- `get_email_template` (line 784): `GET /email/{id}`. -/
def PayWhirl.get_email_template (pw : PayWhirl) (template_id : Int)
    (transport : Request → Response) : ApiResult :=
  pw._get ("/email/" ++ toString template_id) none transport

/-- `send_email` (line 798): `POST /send-email`. -/
def PayWhirl.send_email (pw : PayWhirl) (data : Params)
    (transport : Request → Response) : ApiResult :=
  pw._post "/send-email" (some data) transport

/-- `get_account` (line 813): `GET /account` with no parameter dict. -/
def PayWhirl.get_account (pw : PayWhirl)
    (transport : Request → Response) : ApiResult :=
  pw._get "/account" none transport

/-- `get_stats` (line 818): `GET /stats` with no parameter dict. -/
def PayWhirl.get_stats (pw : PayWhirl)
    (transport : Request → Response) : ApiResult :=
  pw._get "/stats" none transport

/-- `get_shipping_rules` (line 823): `GET /shipping/` with no parameter
dict. -/
def PayWhirl.get_shipping_rules (pw : PayWhirl)
    (transport : Request → Response) : ApiResult :=
  pw._get "/shipping/" none transport

/-- `get_shipping_rule` (line 828): `GET /shipping/{id}`. -/
def PayWhirl.get_shipping_rule (pw : PayWhirl) (shipping_rule_id : Int)
    (transport : Request → Response) : ApiResult :=
  pw._get ("/shipping/" ++ toString shipping_rule_id) none transport

/-- `get_tax_rules` (line 842): `GET /tax` with no parameter dict. -/
def PayWhirl.get_tax_rules (pw : PayWhirl)
    (transport : Request → Response) : ApiResult :=
  pw._get "/tax" none transport

/-- `get_tax_rule` (line 847): `GET /tax/{id}`. -/
def PayWhirl.get_tax_rule (pw : PayWhirl) (rule_id : Int)
    (transport : Request → Response) : ApiResult :=
  pw._get ("/tax/" ++ toString rule_id) none transport

/-- `get_multi_auth_token` (line 861): `POST /multiauth`. -/
def PayWhirl.get_multi_auth_token (pw : PayWhirl) (data : Params)
    (transport : Request → Response) : ApiResult :=
  pw._post "/multiauth" (some data) transport

/-- One invocation of a public endpoint method of the `PayWhirl` class, with
its arguments: each constructor corresponds to exactly one public method of
`paywhirl.py`. -/
inductive Call : Type where
  | get_customers (data : Params) : Call
  | get_customer (customer_id : Int) : Call
  | get_addresses (customer_id : Int) : Call
  | get_address (address_id : Int) : Call
  | get_profile (customer_id : Int) : Call
  | auth_customer (email : String) (password : String) : Call
  | create_customer (data : Params) : Call
  | update_customer (data : Params) : Call
  | delete_customer (customer_id : Int) (forget : Option Int) : Call
  | get_questions (return_list_size : Int) : Call
  | update_answer (data : Params) : Call
  | get_answers (customer_id : Int) : Call
  | get_plans (data : Params) : Call
  | get_plan (plan_id : Int) : Call
  | create_plan (data : Params) : Call
  | update_plan (data : Params) : Call
  | get_subscriptions (customer_id : Int) : Call
  | get_subscription (subscription_id : Int) : Call
  | subscribe_customer (data : Params) : Call
  | update_subscription (subscription_id : Int) (plan_id : Int)
      (quantity : Option Int) (address_id : Option Int) (installments_left : Option Int)
      (trial_end : Option Int) (card_id : Option Int) : Call
  | unsubscribe_customer (subscription_id : Int) : Call
  | get_subscribers (data : Params) : Call
  | get_invoice (invoice_id : Int) : Call
  | get_invoices (customer_id : Int) (all_invoices : Bool) : Call
  | process_invoice (invoice_id : Int) (data : Params) : Call
  | mark_invoice_as_paid (invoice_id : Int) : Call
  | add_promo_code_to_invoice (invoice_id : Int) (promo_code : String) : Call
  | remove_promo_code_from_invoice (invoice_id : Int) : Call
  | update_invoice_card (invoice_id : Int) (card_id : Int) : Call
  | update_invoice_items (invoice_id : Int) (line_items : Params) : Call
  | create_invoice (data : Params) : Call
  | delete_invoice (invoice_id : Int) : Call
  | get_gateways : Call
  | get_gateway (gateway_id : Int) : Call
  | create_charge (data : Params) : Call
  | get_charge (charge_id : Int) : Call
  | refund_charge (charge_id : Int) (data : Params) : Call
  | get_cards (customer_id : Int) : Call
  | get_card (card_id : Int) : Call
  | create_card (data : Params) : Call
  | delete_card (card_id : Int) : Call
  | get_promos : Call
  | get_promo (promo_id : Int) : Call
  | create_promo (data : Params) : Call
  | delete_promo (promo_id : Int) : Call
  | get_email_template (template_id : Int) : Call
  | send_email (data : Params) : Call
  | get_account : Call
  | get_stats : Call
  | get_shipping_rules : Call
  | get_shipping_rule (shipping_rule_id : Int) : Call
  | get_tax_rules : Call
  | get_tax_rule (rule_id : Int) : Call
  | get_multi_auth_token (data : Params) : Call

/-- Evaluate one public endpoint method invocation on a client value over the
given transport. -/
def PayWhirl.invoke (pw : PayWhirl) (c : Call) (transport : Request → Response) : ApiResult :=
  match c with
  | Call.get_customers data => pw.get_customers data transport
  | Call.get_customer i => pw.get_customer i transport
  | Call.get_addresses i => pw.get_addresses i transport
  | Call.get_address i => pw.get_address i transport
  | Call.get_profile i => pw.get_profile i transport
  | Call.auth_customer e p => pw.auth_customer e p transport
  | Call.create_customer data => pw.create_customer data transport
  | Call.update_customer data => pw.update_customer data transport
  | Call.delete_customer i f => pw.delete_customer i f transport
  | Call.get_questions n => pw.get_questions n transport
  | Call.update_answer data => pw.update_answer data transport
  | Call.get_answers i => pw.get_answers i transport
  | Call.get_plans data => pw.get_plans data transport
  | Call.get_plan i => pw.get_plan i transport
  | Call.create_plan data => pw.create_plan data transport
  | Call.update_plan data => pw.update_plan data transport
  | Call.get_subscriptions i => pw.get_subscriptions i transport
  | Call.get_subscription i => pw.get_subscription i transport
  | Call.subscribe_customer data => pw.subscribe_customer data transport
  | Call.update_subscription s p q a il te cid =>
      pw.update_subscription s p q a il te cid transport
  | Call.unsubscribe_customer i => pw.unsubscribe_customer i transport
  | Call.get_subscribers data => pw.get_subscribers data transport
  | Call.get_invoice i => pw.get_invoice i transport
  | Call.get_invoices i a => pw.get_invoices i a transport
  | Call.process_invoice i data => pw.process_invoice i data transport
  | Call.mark_invoice_as_paid i => pw.mark_invoice_as_paid i transport
  | Call.add_promo_code_to_invoice i code => pw.add_promo_code_to_invoice i code transport
  | Call.remove_promo_code_from_invoice i => pw.remove_promo_code_from_invoice i transport
  | Call.update_invoice_card i cid => pw.update_invoice_card i cid transport
  | Call.update_invoice_items i items => pw.update_invoice_items i items transport
  | Call.create_invoice data => pw.create_invoice data transport
  | Call.delete_invoice i => pw.delete_invoice i transport
  | Call.get_gateways => pw.get_gateways transport
  | Call.get_gateway i => pw.get_gateway i transport
  | Call.create_charge data => pw.create_charge data transport
  | Call.get_charge i => pw.get_charge i transport
  | Call.refund_charge i data => pw.refund_charge i data transport
  | Call.get_cards i => pw.get_cards i transport
  | Call.get_card i => pw.get_card i transport
  | Call.create_card data => pw.create_card data transport
  | Call.delete_card i => pw.delete_card i transport
  | Call.get_promos => pw.get_promos transport
  | Call.get_promo i => pw.get_promo i transport
  | Call.create_promo data => pw.create_promo data transport
  | Call.delete_promo i => pw.delete_promo i transport
  | Call.get_email_template i => pw.get_email_template i transport
  | Call.send_email data => pw.send_email data transport
  | Call.get_account => pw.get_account transport
  | Call.get_stats => pw.get_stats transport
  | Call.get_shipping_rules => pw.get_shipping_rules transport
  | Call.get_shipping_rule i => pw.get_shipping_rule i transport
  | Call.get_tax_rules => pw.get_tax_rules transport
  | Call.get_tax_rule i => pw.get_tax_rule i transport
  | Call.get_multi_auth_token data => pw.get_multi_auth_token data transport

/-- A concrete client for the counterexample evaluations: constructed with
the production base URL. -/
def client0 : PayWhirl := PayWhirl.init "key0" "secret0" defaultApiBase

/-- A concrete transport that always answers 200 with a null JSON body. -/
def transport0 : Request → Response := fun _ => ⟨200, "ok", JsonValue.null⟩

/-- The dispatcher issues exactly one transport call per invocation. -/
theorem request_trace_one (pw : PayWhirl) (m p : String) (prm : Option Params)
    (t : Request → Response) : (pw._request m p prm t).2.1.length = 1 := rfl

/-- Result of the dispatcher against a transport that answers with a fixed
status, body text and decoded JSON. -/
theorem request_const_result (pw : PayWhirl) (m p : String) (prm : Option Params)
    (s : Nat) (txt : String) (j : JsonValue) :
    (pw._request m p prm (fun _ => ⟨s, txt, j⟩)).2.2 =
      if 400 ≤ s ∧ s < 600 then Except.error ⟨s, txt⟩ else Except.ok j := by
  by_cases h : 400 ≤ s ∧ s < 600 <;>
    simp [PayWhirl._request, Response.raise_for_status, h]

/-- A 401 response makes the dispatcher fail with an `HTTPError` carrying
status 401 and the body text. -/
theorem request_error_401 (pw : PayWhirl) (m p : String) (prm : Option Params)
    (txt : String) (j : JsonValue) :
    (pw._request m p prm (fun _ => ⟨401, txt, j⟩)).2.2 = Except.error ⟨401, txt⟩ := by
  have h := request_const_result pw m p prm 401 txt j
  simpa using h

/-- Claim C1: a dispatched request's URL is the configured base concatenated
with the path; it carries exactly the two headers `api_key` and `api_secret`
with the values stored at construction; a POST encodes the parameter mapping
as the JSON body and a GET as the query string; the stored TLS flag is passed
as the certificate-validation setting; and `get_customer 42` issues
`GET {base}/customer/42` with those headers and returns the parsed JSON of a
200 response. -/
theorem claim_C1_dispatch (pw : PayWhirl) (path : String) (prm : Option Params)
    (t : Request → Response) (k sec b : String) (txt : String) (j : JsonValue) :
    (pw._request "post" path prm t).2.1 =
      [⟨"post", pw._api_base ++ path, pw.authHeaders, pw._verify_ssl, [], some (orEmpty prm)⟩] ∧
    (pw._request "get" path prm t).2.1 =
      [⟨"get", pw._api_base ++ path, pw.authHeaders, pw._verify_ssl, orEmpty prm, none⟩] ∧
    (PayWhirl.init k sec b).authHeaders = [("api_key", k), ("api_secret", sec)] ∧
    (pw.get_customer 42 t).2.1 =
      [⟨"get", pw._api_base ++ "/customer/42", pw.authHeaders, pw._verify_ssl, [], none⟩] ∧
    (pw.get_customer 42 (fun _ => ⟨200, txt, j⟩)).2.2 = Except.ok j := by
  refine ⟨rfl, rfl, rfl, rfl, ?_⟩
  have h := request_const_result pw "get" ("/customer/" ++ toString (42 : Int)) none 200 txt j
  simpa using h

/-- Claim C2: for every public endpoint method, exactly one request is issued
(no retry); a success-status response yields the response's decoded JSON
unchanged, while a 4xx/5xx status yields an `HTTPError` carrying the original
status code and raw body text — in particular a 401 yields an error exposing
status 401 and the body text. -/
theorem claim_C2_http_errors (pw : PayWhirl) (c : Call) (s : Nat) (txt : String)
    (j : JsonValue) :
    (∀ t : Request → Response, (pw.invoke c t).2.1.length = 1) ∧
    ((pw.invoke c (fun _ => ⟨s, txt, j⟩)).2.2 =
      if 400 ≤ s ∧ s < 600 then Except.error ⟨s, txt⟩ else Except.ok j) ∧
    ((pw.invoke c (fun _ => ⟨401, txt, j⟩)).2.2 = Except.error ⟨401, txt⟩) := by
  cases c <;>
    exact ⟨fun t => rfl, request_const_result _ _ _ _ s txt j,
      request_error_401 _ _ _ _ txt j⟩

/-- Claim C3: every templated get-by-id method issues a GET whose URL is the
configured base concatenated with that endpoint's `/resource/` path and the
identifier, with no query parameters and no body. -/
theorem claim_C3_get_by_id_urls (pw : PayWhirl) (i : Int) (t : Request → Response) :
    (pw.get_customer i t).2.1 =
      [⟨"get", pw._api_base ++ ("/customer/" ++ toString i), pw.authHeaders, pw._verify_ssl, [], none⟩] ∧
    (pw.get_plan i t).2.1 =
      [⟨"get", pw._api_base ++ ("/plan/" ++ toString i), pw.authHeaders, pw._verify_ssl, [], none⟩] ∧
    (pw.get_invoice i t).2.1 =
      [⟨"get", pw._api_base ++ ("/invoice/" ++ toString i), pw.authHeaders, pw._verify_ssl, [], none⟩] ∧
    (pw.get_card i t).2.1 =
      [⟨"get", pw._api_base ++ ("/card/" ++ toString i), pw.authHeaders, pw._verify_ssl, [], none⟩] ∧
    (pw.get_charge i t).2.1 =
      [⟨"get", pw._api_base ++ ("/charge/" ++ toString i), pw.authHeaders, pw._verify_ssl, [], none⟩] ∧
    (pw.get_gateway i t).2.1 =
      [⟨"get", pw._api_base ++ ("/gateway/" ++ toString i), pw.authHeaders, pw._verify_ssl, [], none⟩] ∧
    (pw.get_promo i t).2.1 =
      [⟨"get", pw._api_base ++ ("/promo/" ++ toString i), pw.authHeaders, pw._verify_ssl, [], none⟩] ∧
    (pw.get_subscription i t).2.1 =
      [⟨"get", pw._api_base ++ ("/subscription/" ++ toString i), pw.authHeaders, pw._verify_ssl, [], none⟩] ∧
    (pw.get_email_template i t).2.1 =
      [⟨"get", pw._api_base ++ ("/email/" ++ toString i), pw.authHeaders, pw._verify_ssl, [], none⟩] ∧
    (pw.get_shipping_rule i t).2.1 =
      [⟨"get", pw._api_base ++ ("/shipping/" ++ toString i), pw.authHeaders, pw._verify_ssl, [], none⟩] ∧
    (pw.get_tax_rule i t).2.1 =
      [⟨"get", pw._api_base ++ ("/tax/" ++ toString i), pw.authHeaders, pw._verify_ssl, [], none⟩] :=
  ⟨rfl, rfl, rfl, rfl, rfl, rfl, rfl, rfl, rfl, rfl, rfl⟩

/-- Claim C4, counterexample: `get_invoices` called with its default
(`all_invoices = False`) does NOT send an empty mapping — the outgoing query
mapping of the single issued request is `{'all': ''}`: it contains the key
`all` with an empty-string placeholder even though the caller supplied no
optional value. -/
theorem claim_C4_counterexample :
    ((client0.get_invoices 5 false transport0).2.1.map Request.query) =
      [[("all", Value.str "")]] ∧
    ((client0.get_invoices 5 false transport0).2.1.map (fun r => r.query.map Prod.fst)) =
      [["all"]] ∧
    ((client0.get_invoices 5 false transport0).2.1.map (fun r => List.lookup "all" r.query)) =
      [some (Value.str "")] :=
  ⟨rfl, rfl, rfl⟩

/-- Claim C4, amended: `update_subscription` sends exactly the required keys
`subscription_id` and `plan_id` plus each optional key (`quantity`,
`address_id`, `installments_left`, `trial_end`, `card_id`) present if and only
if the caller supplied it (not `None`), with no null placeholders; however
`get_invoices` always includes the key `all` in its query mapping — with the
empty-string value when called with its default and `'1'` otherwise. -/
theorem claim_C4_amended (pw : PayWhirl) (sid plid : Int)
    (q a il te cid : Option Int) (customer_id : Int) (allinv : Bool)
    (t : Request → Response) :
    (∃ data : Params,
      (pw.update_subscription sid plid q a il te cid t).2.1 =
        [⟨"post", pw._api_base ++ "/update/subscription", pw.authHeaders,
          pw._verify_ssl, [], some data⟩] ∧
      data.map Prod.fst =
        ["subscription_id", "plan_id"] ++
          (if q.isSome then ["quantity"] else []) ++
          (if a.isSome then ["address_id"] else []) ++
          (if il.isSome then ["installments_left"] else []) ++
          (if te.isSome then ["trial_end"] else []) ++
          (if cid.isSome then ["card_id"] else []) ∧
      data.lookup "subscription_id" = some (Value.int sid) ∧
      data.lookup "plan_id" = some (Value.int plid) ∧
      data.lookup "quantity" = q.map Value.int ∧
      data.lookup "address_id" = a.map Value.int ∧
      data.lookup "installments_left" = il.map Value.int ∧
      data.lookup "trial_end" = te.map Value.int ∧
      data.lookup "card_id" = cid.map Value.int) ∧
    ((pw.get_invoices customer_id allinv t).2.1.map Request.query) =
      [[("all", Value.str (if allinv then "1" else ""))]] := by
  rcases q with _ | q <;> rcases a with _ | a <;> rcases il with _ | il <;>
    rcases te with _ | te <;> rcases cid with _ | cid <;>
    exact ⟨⟨_, rfl, rfl, rfl, rfl, rfl, rfl, rfl, rfl, rfl⟩, rfl⟩

/-- Claim C5, counterexample: invoking the customer and subscriber listings
with no options (an empty dict) produces requests whose query mapping is
empty and in particular carries no `limit` key at all — the documented
defaults `limit=100` / `limit=20` are not placed on the outgoing query
string by the client. -/
theorem claim_C5_counterexample :
    ((client0.get_customers [] transport0).2.1.map (fun r => List.lookup "limit" r.query)) =
      [none] ∧
    ((client0.get_subscribers [] transport0).2.1.map (fun r => List.lookup "limit" r.query)) =
      [none] ∧
    ((client0.get_customers [] transport0).2.1.map Request.query) = [[]] ∧
    ((client0.get_subscribers [] transport0).2.1.map Request.query) = [[]] :=
  ⟨rfl, rfl, rfl, rfl⟩

/-- Claim C5, amended: supplying no options to the customer, subscriber or
plan listing produces a request with an empty query string — the documented
limits (100 and 20) are server-side defaults that never appear on the wire;
`get_questions` alone injects its limit argument (Python default 100) as the
`limit` query parameter. -/
theorem claim_C5_amended (pw : PayWhirl) (n : Int) (t : Request → Response) :
    ((pw.get_customers [] t).2.1.map Request.query) = [[]] ∧
    ((pw.get_subscribers [] t).2.1.map Request.query) = [[]] ∧
    ((pw.get_plans [] t).2.1.map Request.query) = [[]] ∧
    ((pw.get_questions n t).2.1.map Request.query) = [[("limit", Value.int n)]] ∧
    ((pw.get_questions 100 t).2.1.map Request.query) = [[("limit", Value.int 100)]] :=
  ⟨rfl, rfl, rfl, rfl, rfl⟩

/-- Claim C6: the endpoint table is reproduced verbatim — each listed public
method issues exactly the verb and path of the fixed table. -/
theorem claim_C6_endpoint_table (pw : PayWhirl) (t : Request → Response) :
    (∀ d : Params, ((pw.get_customers d t).2.1.map fun r => (r.method, r.url)) =
      [("get", pw._api_base ++ "/customers")]) ∧
    (∀ i : Int, ((pw.get_customer i t).2.1.map fun r => (r.method, r.url)) =
      [("get", pw._api_base ++ ("/customer/" ++ toString i))]) ∧
    (∀ d : Params, ((pw.create_customer d t).2.1.map fun r => (r.method, r.url)) =
      [("post", pw._api_base ++ "/create/customer")]) ∧
    (∀ d : Params, ((pw.update_customer d t).2.1.map fun r => (r.method, r.url)) =
      [("post", pw._api_base ++ "/update/customer")]) ∧
    (∀ (i : Int) (f : Option Int),
      ((pw.delete_customer i f t).2.1.map fun r => (r.method, r.url)) =
      [("post", pw._api_base ++ "/delete/customer")]) ∧
    (∀ d : Params, ((pw.subscribe_customer d t).2.1.map fun r => (r.method, r.url)) =
      [("post", pw._api_base ++ "/subscribe/customer")]) ∧
    (∀ (i : Int) (d : Params),
      ((pw.process_invoice i d t).2.1.map fun r => (r.method, r.url)) =
      [("post", pw._api_base ++ ("/invoice/" ++ toString i ++ "/process"))]) ∧
    (∀ i : Int, ((pw.mark_invoice_as_paid i t).2.1.map fun r => (r.method, r.url)) =
      [("post", pw._api_base ++ ("/invoice/" ++ toString i ++ "/mark-as-paid"))]) ∧
    (∀ (i : Int) (code : String),
      ((pw.add_promo_code_to_invoice i code t).2.1.map fun r => (r.method, r.url)) =
      [("post", pw._api_base ++ ("/invoice/" ++ toString i ++ "/add-promo"))]) ∧
    (∀ i : Int,
      ((pw.remove_promo_code_from_invoice i t).2.1.map fun r => (r.method, r.url)) =
      [("post", pw._api_base ++ ("/invoice/" ++ toString i ++ "/remove-promo"))]) ∧
    (∀ (i : Int) (cid : Int),
      ((pw.update_invoice_card i cid t).2.1.map fun r => (r.method, r.url)) =
      [("post", pw._api_base ++ ("/invoice/" ++ toString i ++ "/card"))]) ∧
    (∀ (i : Int) (items : Params),
      ((pw.update_invoice_items i items t).2.1.map fun r => (r.method, r.url)) =
      [("post", pw._api_base ++ ("/invoice/" ++ toString i ++ "/items"))]) ∧
    (∀ (i : Int) (d : Params),
      ((pw.refund_charge i d t).2.1.map fun r => (r.method, r.url)) =
      [("post", pw._api_base ++ ("/refund/charge/" ++ toString i))]) ∧
    (∀ d : Params, ((pw.get_multi_auth_token d t).2.1.map fun r => (r.method, r.url)) =
      [("post", pw._api_base ++ "/multiauth")]) ∧
    (∀ d : Params, ((pw.send_email d t).2.1.map fun r => (r.method, r.url)) =
      [("post", pw._api_base ++ "/send-email")]) ∧
    ((pw.get_account t).2.1.map fun r => (r.method, r.url)) =
      [("get", pw._api_base ++ "/account")] ∧
    ((pw.get_stats t).2.1.map fun r => (r.method, r.url)) =
      [("get", pw._api_base ++ "/stats")] :=
  ⟨fun _ => rfl, fun _ => rfl, fun _ => rfl, fun _ => rfl, fun _ _ => rfl,
    fun _ => rfl, fun _ _ => rfl, fun _ => rfl, fun _ _ => rfl, fun _ => rfl,
    fun _ _ => rfl, fun _ _ => rfl, fun _ _ => rfl, fun _ => rfl, fun _ => rfl,
    rfl, rfl⟩

/-- Claim C7: `delete_customer` issues `POST {base}/delete/customer` with a
JSON body containing exactly the key `id` mapped to the given id, plus the
key `forget` mapped to the given value if and only if the `forget` argument
was supplied (not `None`); in particular `delete_customer(7, forget=1)` sends
body `{"id": 7, "forget": 1}`. -/
theorem claim_C7_delete_customer (pw : PayWhirl) (customer_id : Int)
    (forget : Option Int) (t : Request → Response) :
    (pw.delete_customer customer_id forget t).2.1 =
      [⟨"post", pw._api_base ++ "/delete/customer", pw.authHeaders, pw._verify_ssl, [],
        some (match forget with
          | none => [("id", Value.int customer_id)]
          | some f => [("id", Value.int customer_id), ("forget", Value.int f)])⟩] ∧
    (pw.delete_customer 7 (some 1) t).2.1 =
      [⟨"post", pw._api_base ++ "/delete/customer", pw.authHeaders, pw._verify_ssl, [],
        some [("id", Value.int 7), ("forget", Value.int 1)]⟩] := by
  refine ⟨?_, rfl⟩
  cases forget <;> rfl

/-- Claim C8: the four configuration fields are left unchanged by every
public endpoint method — the client value after any call equals the client
value before it. -/
theorem claim_C8_config_immutable (pw : PayWhirl) (c : Call)
    (t : Request → Response) : (pw.invoke c t).1 = pw := by
  cases c <;> rfl

/-- Claim C9: for every client built through the public constructor the TLS
flag is `true`, and every request issued by every public method carries
`verify = true` — certificate validation cannot be disabled through the
public interface. -/
theorem claim_C9_verify_ssl_always_true (k sec b : String) (c : Call)
    (t : Request → Response) :
    (PayWhirl.init k sec b)._verify_ssl = true ∧
    ((PayWhirl.init k sec b).invoke c t).2.1.map Request.verify = [true] := by
  refine ⟨rfl, ?_⟩
  cases c <;> rfl

/-- Claim C10: dispatching with `params = None` and with `params = {}`
produce identical requests, and the POST endpoints invoked without a
parameter mapping (`mark_invoice_as_paid`, `remove_promo_code_from_invoice`)
still send a JSON body equal to the empty object, never an absent body. -/
theorem claim_C10_empty_params (pw : PayWhirl) (m p : String) (i : Int)
    (t : Request → Response) :
    pw._request m p none t = pw._request m p (some []) t ∧
    (pw.mark_invoice_as_paid i t).2.1 =
      [⟨"post", pw._api_base ++ ("/invoice/" ++ toString i ++ "/mark-as-paid"),
        pw.authHeaders, pw._verify_ssl, [], some []⟩] ∧
    (pw.remove_promo_code_from_invoice i t).2.1 =
      [⟨"post", pw._api_base ++ ("/invoice/" ++ toString i ++ "/remove-promo"),
        pw.authHeaders, pw._verify_ssl, [], some []⟩] :=
  ⟨rfl, rfl, rfl⟩
